import Mathlib

/-!
# NutriPilot — verification of the Observe-Think-Act orchestrator

A shallow embedding of the nutripilot backend
(`backend/app/core/orchestrator.py`, `backend/app/core/state.py`,
`backend/app/core/user_goals.py`, `backend/app/agents/goal_evaluator.py`).

Python floats are modelled as rationals (`ℚ`); all arithmetic performed by the
program on the values relevant to the claims is exact, so this is faithful for
every comparison and sum appearing below.  Python lists are Lean lists, dicts
are association lists with last-write-wins update, and code that can raise is
modelled in `Except String`.  External agents (vision, biodata, audit) perform
network I/O; their responses are supplied by an `Env` oracle, while every piece
of orchestrator logic is translated from the source.
-/

namespace NutriPilot

/-! ## Python string primitives -/

/-- Does `pat` occur at the head of `hay`?  (One alignment of substring search.) -/
def matchAt : List Char → List Char → Bool
  | _, [] => true
  | [], _ :: _ => false
  | c :: hs, p :: ps => c == p && matchAt hs ps

/-- `findFrom hay pat i` returns `i` plus the offset of the first occurrence of
`pat` in `hay`, scanning left to right — the semantics of Python `str.find`
(which returns the smallest matching index, and `0` for an empty pattern). -/
def findFrom : List Char → List Char → Nat → Option Nat
  | [], pat, i => if matchAt [] pat then some i else none
  | c :: t, pat, i =>
    if matchAt (c :: t) pat then some i else findFrom t pat (i + 1)

/-- Python `hay.find(pat)`. -/
def pyFind (hay pat : String) : Option Nat :=
  findFrom hay.toList pat.toList 0

/-- Python `pat in hay` (substring containment). -/
def pyContains (hay pat : String) : Bool :=
  (pyFind hay pat).isSome

/-- Python `s.lower()` (ASCII case folding; every string the program lowers is
ASCII). -/
def pyLower (s : String) : String :=
  String.mk (s.toList.map Char.toLower)

/-- Python `s.strip()[:n]`: strip surrounding whitespace, keep `n` characters. -/
def stripTake (s : String) (n : Nat) : String :=
  String.mk (s.trim.toList.take n)

/-- Python `s.title()` restricted to a single lowercase word (every string the
program titles at a call site modelled here is one word). -/
def pyTitle (s : String) : String :=
  match s.toList with
  | [] => ""
  | c :: r => String.mk (c.toUpper :: r)

/-- Python `min(a, b)` on two numbers (kernel-reducible; equals `min`). -/
def pyMin (a b : ℚ) : ℚ := if a ≤ b then a else b

/-- Python `max(a, b)` on two numbers (kernel-reducible; equals `max`). -/
def pyMax (a b : ℚ) : ℚ := if a ≤ b then b else a

/-! Decimal constants of the source, written in reduced `num/den`
constructor form (`Rat.add` and friends are `@[irreducible]`, so only
constructor-normal rationals evaluate under `decide`/`rfl`; each constant
below is definitionally the stated decimal). -/

/-- `0.1`. -/
def q010 : ℚ := ⟨1, 10, by decide, by decide⟩

/-- `0.15`. -/
def q015 : ℚ := ⟨3, 20, by decide, by decide⟩

/-- `0.2`. -/
def q020 : ℚ := ⟨1, 5, by decide, by decide⟩

/-- `0.25`. -/
def q025 : ℚ := ⟨1, 4, by decide, by decide⟩

/-- `0.3`. -/
def q030 : ℚ := ⟨3, 10, by decide, by decide⟩

/-- `0.35`. -/
def q035 : ℚ := ⟨7, 20, by decide, by decide⟩

/-- `0.4`. -/
def q040 : ℚ := ⟨2, 5, by decide, by decide⟩

/-- `0.5`. -/
def qHalf : ℚ := ⟨1, 2, by decide, by decide⟩

/-- `0.6`. -/
def q060 : ℚ := ⟨3, 5, by decide, by decide⟩

/-- `0.7`. -/
def q070 : ℚ := ⟨7, 10, by decide, by decide⟩

/-- `0.85`. -/
def q085 : ℚ := ⟨17, 20, by decide, by decide⟩

/-- `0.87`. -/
def q087 : ℚ := ⟨87, 100, by decide, by decide⟩

/-- `0.88`. -/
def q088 : ℚ := ⟨22, 25, by decide, by decide⟩

/-- `0.9`. -/
def q090 : ℚ := ⟨9, 10, by decide, by decide⟩

/-- Round half to even (the rounding used by Python `round` and `format`). -/
def pyRoundInt (q : ℚ) : ℤ :=
  let f := ⌊q⌋
  let r := q - f
  if r < qHalf then f
  else if qHalf < r then f + 1
  else if f % 2 = 0 then f else f + 1

/-- Python `round(q, 1)`. -/
def pyRound1 (q : ℚ) : ℚ :=
  (pyRoundInt (q * 10) : ℚ) / 10

/-- Python `f"{q:.0f}"`. -/
def fmtF0 (q : ℚ) : String :=
  toString (pyRoundInt q)

/-! ## Data model (`state.py`, `user_goals.py`) -/

/-- `MealType` enum. -/
inductive MealType
  | breakfast | lunch | dinner | snack
deriving DecidableEq, Repr

/-- `NutrientInfo` (fields not read by the orchestrator are omitted). -/
structure NutrientInfo where
  name : String
  amount : ℚ
deriving DecidableEq, Repr

/-- `FoodItem` (bounding box and USDA id are never read by the orchestrator). -/
structure FoodItem where
  name : String
  portion_grams : ℚ
  portion_description : String
  confidence : ℚ
  nutrients : List NutrientInfo := []
deriving DecidableEq, Repr

/-- `AdjustmentAction` enum of `state.py`: exactly four members.
`orchestrator.py` line 570 references a fifth attribute `SWAP`, which does not
exist; evaluating it raises `AttributeError` (see `attrErrSWAP`). -/
inductive AdjustmentAction
  | reduce | replace | remove | add
deriving DecidableEq, Repr

/-- `MealAdjustment`. -/
structure MealAdjustment where
  food_name : String
  action : AdjustmentAction
  reason : String
  alternative : Option String := none
  priority : Nat := 1
deriving DecidableEq, Repr

/-- `HealthConstraint` (only the fields the orchestrator reads). -/
structure HealthConstraint where
  constraint_type : String
  value : ℚ
  unit : String
deriving DecidableEq, Repr

/-- `MealState` (session id, timestamp and trace id are fresh random /
clock values never branched on; they are omitted). -/
structure MealState where
  user_id : String
  meal_type : Option MealType := none
  detected_foods : List FoodItem := []
  raw_ocr_text : Option String := none
  image_analysis_confidence : ℚ := 0
  health_constraints : List HealthConstraint := []
  total_nutrients : List NutrientInfo := []
  constraint_violations : List String := []
  adjustments : List MealAdjustment := []
  summary : Option String := none
  overall_score : Option ℚ := none
  agent_calls : List String := []
  processing_time_ms : Option Nat := none
deriving DecidableEq, Repr

/-- `HealthGoal` enum. -/
inductive HealthGoal
  | weight_loss | weight_gain | glycemic_control | lower_cholesterol
  | heart_health | muscle_building | general_wellness
deriving DecidableEq, Repr

/-- `HealthCondition` enum. -/
inductive HealthCondition
  | type_2_diabetes | type_1_diabetes | hypertension | high_cholesterol
  | celiac_disease | lactose_intolerant | kidney_disease | cond_none
deriving DecidableEq, Repr

/-- `DailyNutrientTargets` with its field defaults. -/
structure DailyNutrientTargets where
  calories : ℚ := 2000
  protein_g : ℚ := 50
  carbs_g : ℚ := 250
  fat_g : ℚ := 65
  fiber_g : ℚ := 25
  sodium_mg : ℚ := 2300
  sugar_g : ℚ := 50
deriving DecidableEq, Repr

/-- `UserProfile` (display name, timeline and timestamps are never read). -/
structure UserProfile where
  user_id : String
  goals : List HealthGoal := []
  conditions : List HealthCondition := []
  dietary_restrictions : List String := []
  daily_targets : DailyNutrientTargets := {}
deriving DecidableEq, Repr

/-! ## Dictionaries built from nutrient lists

`{n.name: n.amount for n in list}` followed by `.get(key, default)`: the last
entry with a given name wins. -/

/-- Lookup in the dict `{n.name: n.amount}` (no lowering), default `0`. -/
def nutrientAmount (l : List NutrientInfo) (name : String) : ℚ :=
  (l.foldl (fun acc n => if n.name == name then some n.amount else acc) none).getD 0

/-- Lookup in the dict `{n.name.lower(): n.amount}`, as an option. -/
def nutrientFindLower (l : List NutrientInfo) (name : String) : Option ℚ :=
  l.foldl (fun acc n => if pyLower n.name == name then some n.amount else acc) none

/-- Lookup in the dict `{n.name.lower(): n.amount}`, default `0`. -/
def nutrientAmountLower (l : List NutrientInfo) (name : String) : ℚ :=
  (nutrientFindLower l name).getD 0

/-! ## Text parsing (`_parse_text_input`)

`common_foods` is transcribed entry for entry, in dict insertion order
(which Python preserves); each value is `(grams, description)`. -/

/-- The static food vocabulary of `_parse_text_input`. -/
def commonFoods : List (String × ℚ × String) := [
  ("grilled chicken breast", 150, "1 medium breast"),
  ("grilled chicken", 150, "1 serving"),
  ("fried chicken", 180, "2 pieces"),
  ("chicken breast", 150, "1 medium breast"),
  ("chicken wings", 120, "4 wings"),
  ("chicken", 150, "1 serving"),
  ("salmon", 150, "1 fillet"),
  ("grilled salmon", 150, "1 fillet"),
  ("tuna", 140, "1 can"),
  ("shrimp", 100, "6 large shrimp"),
  ("steak", 200, "6 oz"),
  ("beef", 150, "1 serving"),
  ("ground beef", 150, "1 patty"),
  ("pork chop", 150, "1 chop"),
  ("bacon", 30, "3 strips"),
  ("sausage", 100, "2 links"),
  ("turkey", 150, "1 serving"),
  ("eggs", 100, "2 eggs"),
  ("egg", 50, "1 egg"),
  ("scrambled eggs", 120, "2 eggs"),
  ("tofu", 100, "1/2 block"),
  ("brown rice", 200, "1 cup cooked"),
  ("white rice", 200, "1 cup cooked"),
  ("rice", 200, "1 cup"),
  ("quinoa", 185, "1 cup cooked"),
  ("pasta", 200, "1 cup cooked"),
  ("spaghetti", 200, "1 cup"),
  ("bread", 30, "1 slice"),
  ("garlic bread", 60, "2 pieces"),
  ("toast", 60, "2 slices"),
  ("bagel", 100, "1 bagel"),
  ("oatmeal", 250, "1 bowl"),
  ("cereal", 40, "1 cup"),
  ("pepperoni pizza", 250, "2 slices"),
  ("cheese pizza", 220, "2 slices"),
  ("pizza", 220, "2 slices"),
  ("hamburger", 250, "1 burger"),
  ("cheeseburger", 280, "1 burger"),
  ("burger", 250, "1 burger"),
  ("hot dog", 150, "1 hot dog"),
  ("french fries", 120, "medium serving"),
  ("fries", 120, "medium serving"),
  ("nachos", 200, "1 plate"),
  ("tacos", 180, "2 tacos"),
  ("burrito", 300, "1 burrito"),
  ("broccoli", 100, "1 cup"),
  ("steamed broccoli", 100, "1 cup"),
  ("roasted vegetables", 150, "1 cup mixed"),
  ("vegetables", 100, "1 cup mixed"),
  ("spinach", 30, "1 cup"),
  ("salad", 150, "1 bowl"),
  ("green salad", 150, "1 bowl"),
  ("caesar salad", 200, "1 bowl"),
  ("carrot", 60, "1 medium"),
  ("carrots", 80, "1/2 cup"),
  ("potato", 150, "1 medium"),
  ("baked potato", 200, "1 large"),
  ("mashed potatoes", 200, "1 cup"),
  ("sweet potato", 150, "1 medium"),
  ("corn", 90, "1 ear"),
  ("green beans", 100, "1 cup"),
  ("asparagus", 90, "6 spears"),
  ("avocado", 100, "1/2 avocado"),
  ("apple", 180, "1 medium"),
  ("banana", 120, "1 medium"),
  ("orange", 130, "1 medium"),
  ("strawberries", 150, "1 cup"),
  ("blueberries", 150, "1 cup"),
  ("grapes", 100, "1 cup"),
  ("watermelon", 150, "1 slice"),
  ("mango", 165, "1 cup"),
  ("cheese", 30, "1 oz"),
  ("yogurt", 170, "1 cup"),
  ("greek yogurt", 170, "1 cup"),
  ("milk", 240, "1 cup"),
  ("cottage cheese", 225, "1 cup"),
  ("water", 240, "1 glass"),
  ("just water", 240, "1 glass"),
  ("coffee", 240, "1 cup"),
  ("black coffee", 240, "1 cup"),
  ("tea", 240, "1 cup"),
  ("green tea", 240, "1 cup"),
  ("sparkling water", 240, "1 glass"),
  ("diet soda", 355, "1 can"),
  ("soda", 355, "1 can"),
  ("orange juice", 240, "1 cup"),
  ("juice", 240, "1 cup"),
  ("smoothie", 350, "1 medium"),
  ("milkshake", 400, "1 medium"),
  ("latte", 350, "1 medium"),
  ("cappuccino", 250, "1 cup"),
  ("chips", 50, "1 oz bag"),
  ("cookies", 60, "2 cookies"),
  ("cake", 100, "1 slice"),
  ("ice cream", 130, "1/2 cup"),
  ("chocolate", 45, "1 bar"),
  ("popcorn", 30, "1 cup"),
  ("nuts", 30, "1/4 cup"),
  ("almonds", 30, "1/4 cup"),
  ("peanuts", 30, "1/4 cup"),
  ("granola bar", 40, "1 bar"),
  ("soup", 240, "1 cup"),
  ("chicken soup", 240, "1 cup"),
  ("tomato soup", 240, "1 cup"),
  ("ramen", 400, "1 bowl"),
  ("pho", 500, "1 bowl"),
  ("bowl", 350, "1 bowl"),
  ("acai bowl", 300, "1 bowl")]

/-- Ordering used by `sorted(common_foods.keys(), key=len, reverse=True)`:
descending name length.  `List.insertionSort` is stable, exactly like Python's
`sorted`, so equal-length entries keep dict insertion order. -/
def longerName (a b : String × ℚ × String) : Prop :=
  b.1.length ≤ a.1.length

instance : DecidableRel longerName := fun a b =>
  inferInstanceAs (Decidable (b.1.length ≤ a.1.length))

instance : IsTotal (String × ℚ × String) longerName :=
  ⟨fun a b => (Nat.le_total b.1.length a.1.length).imp id id⟩

instance : IsTrans (String × ℚ × String) longerName :=
  ⟨fun _ _ _ h h2 => Nat.le_trans h2 h⟩

/-- The vocabulary sorted by decreasing phrase length (stable). -/
def sortedFoods : List (String × ℚ × String) :=
  List.insertionSort longerName commonFoods

/-- The matching loop of `_parse_text_input`: for each vocabulary entry, find
its first occurrence in the lowered text; accept it if its span does not
overlap any previously accepted span; stop after 6 matches.  Returns the
accepted spans (as index lists) and the matched `FoodItem`s. -/
def scanFoods :
    List (String × ℚ × String) → List Char → List (List Nat) → List FoodItem →
      List (List Nat) × List FoodItem
  | [], _, spans, acc => (spans, acc)
  | e :: rest, text, spans, acc =>
    if 6 ≤ acc.length then (spans, acc)
    else
      match findFrom text e.1.toList 0 with
      | none => scanFoods rest text spans acc
      | some idx =>
        let span := List.range' idx e.1.length
        if span.all (fun i => spans.all (fun s => !s.contains i)) then
          scanFoods rest text (spans ++ [span])
            (acc ++ [{ name := e.1, portion_grams := e.2.1,
                       portion_description := e.2.2, confidence := q070 }])
        else scanFoods rest text spans acc

/-- `_parse_text_input`, returning (accepted spans, detected foods, overall
confidence).  When nothing matches, a single item is synthesized from the raw
text stripped and truncated to 50 characters. -/
def parseTextResult (text : String) :
    List (List Nat) × List FoodItem × ℚ :=
  let textLower := text.toList.map Char.toLower
  let r := scanFoods sortedFoods textLower [] []
  if r.2.isEmpty then
    let cleaned := stripTake text 50
    ([], [{ name := if cleaned == "" then "meal" else cleaned,
            portion_grams := 300, portion_description := "1 serving",
            confidence := q040 }], q030)
  else
    (r.1, r.2, if 1 < r.2.length then q070 else q060)

/-- `_parse_text_input` as a state transformer. -/
def parseTextIntoState (state : MealState) (text : String) : MealState :=
  let r := parseTextResult text
  { state with detected_foods := r.2.1, image_analysis_confidence := r.2.2 }

/-- `_add_mock_foods` (fallback when the vision agent fails on an image). -/
def addMockFoods (state : MealState) : MealState :=
  { state with
    detected_foods := [
      { name := "grilled chicken breast", portion_grams := 150,
        portion_description := "1 medium breast", confidence := q090 },
      { name := "brown rice", portion_grams := 200,
        portion_description := "1 cup cooked", confidence := q085 },
      { name := "steamed broccoli", portion_grams := 100,
        portion_description := "1 cup", confidence := q088 }],
    image_analysis_confidence := q087 }

/-! ## Meal scoring (`_calculate_meal_score`) -/

/-- The soft-warning marker prepended to audit warnings in the THINK phase. -/
def warnMarker : String := "⚠️"

/-- `_calculate_meal_score`, translated statement by statement. -/
def calculateMealScore (state : MealState) : ℚ :=
  let score : ℚ := 70
  let protein := nutrientAmount state.total_nutrients "protein"
  let score := if 30 ≤ protein then score + 15
    else if 20 ≤ protein then score + 10
    else if 10 ≤ protein then score + 5
    else score
  let fiber := nutrientAmount state.total_nutrients "fiber"
  let score := if 8 ≤ fiber then score + 10
    else if 5 ≤ fiber then score + 5
    else score
  let sodium := nutrientAmount state.total_nutrients "sodium"
  let score := if 1000 < sodium then score - 10
    else if 800 < sodium then score - 5
    else score
  let serious :=
    (state.constraint_violations.filter (fun v => !pyContains v warnMarker)).length
  let score := score - (serious : ℚ) * 10
  let score := if 4 ≤ state.detected_foods.length then score + 10
    else if 3 ≤ state.detected_foods.length then score + 5
    else score
  pyMax 0 (pyMin 100 score)

/-! Spec-side scoring formula, for the refinement claim about
`_calculate_meal_score`.  The components follow the spec's words. -/

/-- Spec: protein bonus, highest tier only. -/
def proteinBonus (p : ℚ) : ℚ :=
  if 30 ≤ p then 15 else if 20 ≤ p then 10 else if 10 ≤ p then 5 else 0

/-- Spec: fiber bonus. -/
def fiberBonus (f : ℚ) : ℚ :=
  if 8 ≤ f then 10 else if 5 ≤ f then 5 else 0

/-- Spec: sodium penalty. -/
def sodiumPenalty (s : ℚ) : ℚ :=
  if 1000 < s then 10 else if 800 < s then 5 else 0

/-- Spec: number of serious violations (no soft-warning marker). -/
def seriousCount (vs : List String) : ℕ :=
  (vs.filter (fun v => !pyContains v warnMarker)).length

/-- Spec: variety bonus as a function of a food count. -/
def varietyBonus (n : ℕ) : ℚ :=
  if 4 ≤ n then 10 else if 3 ≤ n then 5 else 0

/-- Modelled from the spec's words ("at least 4 **distinct** detected foods"):
the claimed scoring formula, counting pairwise-distinct food items. -/
def specMealScoreDistinct (s : MealState) : ℚ :=
  pyMax 0 (pyMin 100 (70 + proteinBonus (nutrientAmount s.total_nutrients "protein")
    + fiberBonus (nutrientAmount s.total_nutrients "fiber")
    - sodiumPenalty (nutrientAmount s.total_nutrients "sodium")
    - 10 * (seriousCount s.constraint_violations : ℚ)
    + varietyBonus s.detected_foods.dedup.length))

/-- The amended scoring formula: the variety bonus counts the entries of
`detected_foods`, duplicates included. -/
def specMealScoreEntries (s : MealState) : ℚ :=
  pyMax 0 (pyMin 100 (70 + proteinBonus (nutrientAmount s.total_nutrients "protein")
    + fiberBonus (nutrientAmount s.total_nutrients "fiber")
    - sodiumPenalty (nutrientAmount s.total_nutrients "sodium")
    - 10 * (seriousCount s.constraint_violations : ℚ)
    + varietyBonus s.detected_foods.length))

/-! ## Goal-based personalization (`_generate_goal_suggestions`)

The function reads nutrient totals through the lowered-name dict, then
iterates the profile's goals appending suggestions.  In the glycemic-control
branch the source evaluates `AdjustmentAction.SWAP`; the `AdjustmentAction`
enum of `state.py` has no member `SWAP`, so that expression raises
`AttributeError("SWAP")` — modelled as an `Except.error`. -/

/-- `str(e)` for the `AttributeError` raised by `AdjustmentAction.SWAP`. -/
def attrErrSWAP : String := "SWAP"

/-- The seven nutrient reads at the top of `_generate_goal_suggestions`. -/
structure NutrientBag where
  protein : ℚ
  calories : ℚ
  carbs : ℚ
  fiber : ℚ
  sodium : ℚ
  fat : ℚ
  sugar : ℚ
deriving DecidableEq, Repr

/-- Build the `NutrientBag`; `carbs` is
`nutrients.get("carbohydrates", nutrients.get("carbs", 0))`. -/
def nutrientBagOf (l : List NutrientInfo) : NutrientBag where
  protein := nutrientAmountLower l "protein"
  calories := nutrientAmountLower l "calories"
  carbs := ((nutrientFindLower l "carbohydrates").getD
    (nutrientAmountLower l "carbs"))
  fiber := nutrientAmountLower l "fiber"
  sodium := nutrientAmountLower l "sodium"
  fat := nutrientAmountLower l "fat"
  sugar := nutrientAmountLower l "sugar"

/-- The suggestions contributed by one goal of the profile (in source order),
or the `AttributeError` raised in the glycemic-control swap branch. -/
def goalBranch (g : HealthGoal) (nb : NutrientBag) (foods : List FoodItem) :
    Except String (List MealAdjustment) :=
  match g with
  | .weight_gain => .ok (
      (if nb.protein < 30 then
        [{ food_name := "meal", action := .add,
           reason := "🎯 Weight Gain: Add more protein to support healthy weight gain",
           alternative := some "grilled chicken, eggs, Greek yogurt, or protein shake",
           priority := 1 }] else []) ++
      (if nb.calories < 400 then
        [{ food_name := "meal", action := .add,
           reason := "🎯 Weight Gain: Increase portion size for caloric surplus",
           alternative := some "add healthy fats like avocado, nuts, or olive oil",
           priority := 2 }] else []) ++
      (if nb.carbs < 40 then
        [{ food_name := "meal", action := .add,
           reason := "🎯 Weight Gain: Add more complex carbs for energy",
           alternative := some "brown rice, sweet potato, oats, or whole grain bread",
           priority := 3 }] else []))
  | .muscle_building => .ok (
      (if nb.protein < 40 then
        [{ food_name := "meal", action := .add,
           reason := "💪 Muscle Building: Increase protein intake significantly",
           alternative := some "lean meat, fish, eggs, or whey protein",
           priority := 1 }] else []) ++
      (if 40 ≤ nb.protein ∧ nb.protein < 50 then
        [{ food_name := "meal", action := .add,
           reason := "💪 Muscle Building: Good protein! Consider adding more for optimal muscle synthesis",
           alternative := some "add another egg or 2oz chicken breast",
           priority := 3 }] else []) ++
      (if nb.calories < 500 then
        [{ food_name := "meal", action := .add,
           reason := "💪 Muscle Building: Ensure adequate calories for muscle growth",
           alternative := some "add carbs like rice or pasta to fuel workouts",
           priority := 2 }] else []))
  | .weight_loss => .ok (
      (if 600 < nb.calories then
        let highCal := (foods.filter (fun f =>
          f.nutrients.any (fun n => n.name == "calories" && 200 < n.amount))).map
            (fun f => f.name)
        [{ food_name := highCal.headD "meal", action := .reduce,
           reason := "🏃 Weight Loss: Consider smaller portions to maintain calorie deficit",
           alternative := some "use smaller plate or reduce portion by 25%",
           priority := 1 }] else []) ++
      (if nb.protein < 25 then
        [{ food_name := "meal", action := .add,
           reason := "🏃 Weight Loss: Add more protein to preserve muscle and stay full",
           alternative := some "lean chicken, fish, or tofu",
           priority := 2 }] else []) ++
      (if nb.fiber < 5 then
        [{ food_name := "meal", action := .add,
           reason := "🏃 Weight Loss: Add fiber-rich foods for satiety",
           alternative := some "vegetables, legumes, or whole grains",
           priority := 3 }] else []))
  | .glycemic_control =>
      let first := if 15 < nb.sugar then
        [{ food_name := "meal", action := .reduce,
           reason := "🍬 Glycemic Control: High sugar content may spike blood glucose",
           alternative := some "choose unsweetened versions or reduce portion",
           priority := 1 : MealAdjustment }] else []
      if 50 < nb.carbs ∧ nb.fiber < 5 then
        -- `MealAdjustment(..., action=AdjustmentAction.SWAP, ...)` raises here.
        .error attrErrSWAP
      else .ok first
  | .heart_health => .ok (
      (if 600 < nb.sodium then
        [{ food_name := "meal", action := .reduce,
           reason := "❤️ Heart Health: High sodium - limit processed foods and added salt",
           alternative := some "use herbs and spices for flavor instead",
           priority := 1 }] else []) ++
      (if nb.fiber < 5 then
        [{ food_name := "meal", action := .add,
           reason := "❤️ Heart Health: Add more fiber for cardiovascular health",
           alternative := some "oats, beans, vegetables, or berries",
           priority := 2 }] else []))
  | .lower_cholesterol => .ok (
      (if nb.fiber < 8 then
        [{ food_name := "meal", action := .add,
           reason := "📉 Lower Cholesterol: Fiber helps reduce cholesterol absorption",
           alternative := some "add oatmeal, beans, or vegetables",
           priority := 1 }] else []) ++
      (if 25 < nb.fat then
        [{ food_name := "meal", action := .reduce,
           reason := "📉 Lower Cholesterol: Reduce saturated fat intake",
           alternative := some "choose lean proteins and limit fried foods",
           priority := 2 }] else []))
  | .general_wellness => .ok (
      (if nb.protein < 20 then
        [{ food_name := "meal", action := .add,
           reason := "🌟 General Wellness: Add more protein for overall health",
           alternative := some "lean meat, fish, eggs, beans, or tofu",
           priority := 2 }] else []) ++
      (if nb.fiber < 5 then
        [{ food_name := "meal", action := .add,
           reason := "🌟 General Wellness: Boost fiber intake for digestive health",
           alternative := some "vegetables, fruits, or whole grains",
           priority := 2 }] else []) ++
      (if 800 < nb.sodium then
        [{ food_name := "meal", action := .reduce,
           reason := "🌟 General Wellness: Consider reducing sodium for better health",
           alternative := some "use herbs and low-sodium seasonings",
           priority := 3 }] else []) ++
      (if 20 < nb.sugar then
        [{ food_name := "meal", action := .reduce,
           reason := "🌟 General Wellness: Limit added sugars for better health",
           alternative := some "choose naturally sweet foods like fruit",
           priority := 3 }] else []))

/-- The `for goal in profile.goals` loop: suggestions accumulate across goals;
an exception aborts the whole function. -/
def goalLoop (nb : NutrientBag) (foods : List FoodItem) :
    List HealthGoal → Except String (List MealAdjustment)
  | [] => .ok []
  | g :: rest => do
    let l ← goalBranch g nb foods
    let r ← goalLoop nb foods rest
    pure (l ++ r)

/-- Everything of `_generate_goal_suggestions` before the final sort/cap. -/
def collectGoalSuggestions (state : MealState) (profile : UserProfile) :
    Except String (List MealAdjustment) :=
  goalLoop (nutrientBagOf state.total_nutrients) state.detected_foods profile.goals

/-- Priority order used by `suggestions.sort(key=lambda x: x.priority)`. -/
def priLE : MealAdjustment → MealAdjustment → Prop :=
  fun a b => a.priority ≤ b.priority

instance : DecidableRel priLE := fun a b =>
  inferInstanceAs (Decidable (a.priority ≤ b.priority))

instance : IsTotal MealAdjustment priLE :=
  ⟨fun a b => (Nat.le_total a.priority b.priority).imp id id⟩

instance : IsTrans MealAdjustment priLE :=
  ⟨fun _ _ _ h h2 => Nat.le_trans h h2⟩

/-- `_generate_goal_suggestions`: collect, stable-sort by priority ascending
(Python's `list.sort` is stable, as is `List.insertionSort`), keep the
first 3. -/
def generateGoalSuggestions (state : MealState) (profile : UserProfile) :
    Except String (List MealAdjustment) :=
  (collectGoalSuggestions state profile).map
    (fun l => (List.insertionSort priLE l).take 3)

/-! ## ACT phase (`_act`) -/

/-- The carbohydrate-reduction adjustment synthesized inside `_act`. -/
def mkCarbAdj (food : FoodItem) : MealAdjustment where
  food_name := food.name
  action := .reduce
  reason := "Consider reducing portion to manage blood glucose"
  alternative := if pyContains (pyLower food.name) "rice" then
    some "cauliflower rice" else none
  priority := 1

/-- `any("carb" in adj.reason.lower() or "glucose" in adj.reason.lower() ...)`. -/
def carbRelated (a : MealAdjustment) : Bool :=
  pyContains (pyLower a.reason) "carb" || pyContains (pyLower a.reason) "glucose"

/-- First nutrient of the food named `"carbohydrates"` (Python `next(..., 0)`). -/
def firstCarbs (f : FoodItem) : ℚ :=
  ((f.nutrients.find? (fun n => n.name == "carbohydrates")).map
    (fun n => n.amount)).getD 0

/-- The first detected food with more than 20 g carbohydrates, as an
adjustment (the inner `for food ... break` loop). -/
def firstHighCarbAdj (foods : List FoodItem) : Option MealAdjustment :=
  (foods.find? (fun f => 20 < firstCarbs f)).map mkCarbAdj

/-- The `for violation in state.constraint_violations` loop of `_act`:
when a violation mentions "carbohydrate" and the user has glycemic concerns,
append one carb-reduction suggestion unless a carb/glucose-related one
already exists. -/
def carbViolationLoop (shouldGly : Bool) (foods : List FoodItem) :
    List String → List MealAdjustment → List MealAdjustment
  | [], adjs => adjs
  | v :: rest, adjs =>
    if pyContains (pyLower v) "carbohydrate" && shouldGly then
      if adjs.any carbRelated then carbViolationLoop shouldGly foods rest adjs
      else
        match firstHighCarbAdj foods with
        | some adj => carbViolationLoop shouldGly foods rest (adjs ++ [adj])
        | none => carbViolationLoop shouldGly foods rest adjs
    else carbViolationLoop shouldGly foods rest adjs

/-- `any(g == HealthGoal.GLYCEMIC_CONTROL for g in profile.goals)`. -/
def hasGlycemicGoal (p : UserProfile) : Bool :=
  p.goals.any (fun g => g == .glycemic_control)

/-- `any(c.value in ['type_1_diabetes', 'type_2_diabetes'] ...)`. -/
def hasDiabetes (p : UserProfile) : Bool :=
  p.conditions.any (fun c => c == .type_1_diabetes || c == .type_2_diabetes)

/-- `_generate_summary`, including Python's `:.0f` formatting. -/
def generateSummary (state : MealState) : String :=
  let names := (state.detected_foods.take 3).map (fun f => f.name)
  let foodsList := String.intercalate ", " names
  let foodsList := if 3 < state.detected_foods.length then
    foodsList ++ " and " ++ toString (state.detected_foods.length - 3) ++ " more"
    else foodsList
  let calories := nutrientAmount state.total_nutrients "calories"
  let protein := nutrientAmount state.total_nutrients "protein"
  let carbs := nutrientAmount state.total_nutrients "carbohydrates"
  let s := "Your meal contains " ++ foodsList
  let s := s ++ " with approximately " ++ fmtF0 calories ++ " calories"
  let s := s ++ ", " ++ fmtF0 protein ++ "g protein, and " ++ fmtF0 carbs
    ++ "g carbohydrates."
  let score := state.overall_score.getD 0
  let s := if 85 ≤ score then s ++ " Excellent balanced meal! 🎉"
    else if 70 ≤ score then s ++ " Great meal with good nutritional balance! 👍"
    else if 55 ≤ score then s ++ " Good meal with room for improvement."
    else s ++ " Consider some adjustments for better nutrition."
  if !state.adjustments.isEmpty then
    s ++ " We have " ++ toString state.adjustments.length ++ " suggestion(s) for you."
  else s

/-- `_act`.  `pending` models `self._pending_suggestions` (set by the THINK
phase when the audit succeeded).  The only raise point is
`_generate_goal_suggestions`; it fires before `state.adjustments` is
assigned, so an error leaves the state as THINK produced it. -/
def actPhase (state : MealState) (profile : Option UserProfile)
    (pending : Option (List MealAdjustment)) : Except String MealState :=
  let withAdj : Except String MealState :=
    match profile with
    | some p =>
      if !p.goals.isEmpty then
        (generateGoalSuggestions state p).map
          (fun l => { state with adjustments := l })
      else match pending with
        | some ps => .ok (if !ps.isEmpty then { state with adjustments := ps } else state)
        | none => .ok state
    | none =>
      match pending with
      | some ps => .ok (if !ps.isEmpty then { state with adjustments := ps } else state)
      | none => .ok state
  withAdj.map (fun st =>
    let st :=
      match profile with
      | some p =>
        if !st.constraint_violations.isEmpty then
          let newAdjs := carbViolationLoop (hasGlycemicGoal p || hasDiabetes p)
            st.detected_foods st.constraint_violations st.adjustments
          { st with adjustments := newAdjs }
        else st
      | none => st
    let st := { st with overall_score := some (calculateMealScore st) }
    { st with summary := some (generateSummary st) })

/-! ## Agent results and the environment oracle

`BaseAgent.execute` wraps `process` in a `try/except`, so an agent call never
raises: it returns a result with a `success` flag and an optional output.
The outputs themselves come from network services (Gemini, USDA, biodata
store); `Env` supplies them.  `raiseObserve`/`raiseThink` model an exception
raised inside the body of a stage (e.g. a pydantic validation error), which
the orchestrator's top-level `try` is specified to absorb. -/

/-- `VisionOutput` (fields read by the orchestrator). -/
structure VisionOutput where
  foods : List FoodItem := []
  ocr_text : Option String := none
  overall_confidence : ℚ := 0
deriving DecidableEq, Repr

/-- `AgentResult` for one agent call: `success` flag plus optional output.
(Python's `result.success and result.output` is `success` and output not
`None`; a pydantic model instance is always truthy.) -/
structure AgentOutcome (α : Type) where
  success : Bool := true
  output : Option α := none
deriving DecidableEq, Repr

/-- `BioDataReport` (fields read by the orchestrator). -/
structure BioDataReport where
  constraints : List HealthConstraint := []
  alerts : List String := []
deriving DecidableEq, Repr

/-- `NutriAuditReport` (fields read by the orchestrator). -/
structure NutriAuditReport where
  total_nutrients : List NutrientInfo := []
  violations : List String := []
  warnings : List String := []
  suggestions : List MealAdjustment := []
  foods_matched : Nat := 0
deriving DecidableEq, Repr

/-- The oracle for one pipeline run. -/
structure Env where
  vision : AgentOutcome VisionOutput := {}
  biodata : AgentOutcome BioDataReport := {}
  audit : AgentOutcome NutriAuditReport := {}
  raiseObserve : Option String := none
  raiseThink : Option String := none
  elapsedMs : Nat := 0
deriving DecidableEq, Repr

/-- Python truthiness of the `image_bytes` argument (`None` and `b""` are
falsy). -/
def truthyBytes : Option (List Nat) → Bool
  | none => false
  | some b => !b.isEmpty

/-- Python truthiness of the `text_input` argument (`None` and `""` are
falsy). -/
def truthyText : Option String → Bool
  | none => false
  | some s => !s.isEmpty

/-! ## OBSERVE phase (`_observe`) -/

/-- The state produced by `_observe` when no exception occurs. -/
def observeState (env : Env) (state : MealState) (image : Option (List Nat))
    (text : Option String) : MealState :=
  if truthyBytes image then
    if env.vision.success then
      match env.vision.output with
      | some vo =>
        { state with detected_foods := vo.foods,
                     image_analysis_confidence := vo.overall_confidence,
                     raw_ocr_text := vo.ocr_text }
      | none => addMockFoods state
    else addMockFoods state
  else if truthyText text then parseTextIntoState state (text.getD "")
  else state

/-- `_observe`. -/
def observePhase (env : Env) (state : MealState) (image : Option (List Nat))
    (text : Option String) : Except String MealState :=
  match env.raiseObserve with
  | some e => .error e
  | none => .ok (observeState env state image text)

/-! ## Extraction-failure gate -/

/-- `EXTRACTION_CONFIDENCE_THRESHOLD = 0.15`. -/
def extractionConfidenceThreshold : ℚ := q015

/-- `MIN_FOODS_FOR_SUCCESS = 1`. -/
def minFoodsForSuccess : Nat := 1

/-- `_is_extraction_failed`. -/
def isExtractionFailed (state : MealState) (isImage : Bool) : Bool :=
  let noFoods := state.detected_foods.length < minFoodsForSuccess
  let lowConf := state.image_analysis_confidence < extractionConfidenceThreshold
  if isImage then
    if noFoods && lowConf then true
    else if state.image_analysis_confidence < q010 then true
    else false
  else false

/-- The user-facing summary for a failed image extraction. -/
def imageFailureSummary : String :=
  "⚠️ Unable to identify food in this image. Please upload a clear photo of your meal, or try describing your food using the text input option. For best results, ensure good lighting and that the food is clearly visible."

/-- The user-facing summary for a failed text extraction. -/
def textFailureSummary : String :=
  "⚠️ Could not process the input as food. Please provide a description of your meal, such as 'grilled chicken with rice and vegetables'."

/-- `_handle_extraction_failure`. -/
def handleExtractionFailure (state : MealState) (isImage : Bool) : MealState :=
  { state with
    detected_foods := [], total_nutrients := [], adjustments := [],
    constraint_violations := [],
    overall_score := some 0,
    summary := some (if isImage then imageFailureSummary else textFailureSummary) }

/-! ## THINK phase (`_think`) -/

/-- `_think` when no exception occurs: returns the updated state and
`self._pending_suggestions` (set only when the audit succeeded). -/
def thinkState (env : Env) (state : MealState) (profile : Option UserProfile) :
    MealState × Option (List MealAdjustment) :=
  let state :=
    if env.biodata.success then
      match env.biodata.output with
      | some rep =>
        let constraints :=
          match profile with
          | some p =>
            if !hasGlycemicGoal p && !hasDiabetes p then
              rep.constraints.filter (fun c => !(c.constraint_type == "blood_glucose"))
            else rep.constraints
          | none => rep.constraints
        { state with health_constraints := constraints }
      | none => state
    else state
  if env.audit.success then
    match env.audit.output with
    | some rep =>
      let violations := rep.warnings.foldl
        (fun acc w => if acc.contains w then acc else acc ++ [warnMarker ++ " " ++ w])
        rep.violations
      ({ state with total_nutrients := rep.total_nutrients,
                    constraint_violations := violations },
       some rep.suggestions)
    | none => (state, none)
  else (state, none)

/-- `_think`. -/
def thinkPhase (env : Env) (state : MealState) (profile : Option UserProfile) :
    Except String (MealState × Option (List MealAdjustment)) :=
  match env.raiseThink with
  | some e => .error e
  | none => .ok (thinkState env state profile)

/-! ## The pipeline (`process`) -/

/-- `ValueError` message of the input validation. -/
def valErrMsg : String := "Either image_bytes or text_input must be provided"

/-- The state right after OBSERVE and the `agent_calls.append("VisionAnalyst")`
that follows it. -/
def stateAfterObserve (env : Env) (userId : String) (image : Option (List Nat))
    (text : Option String) (mealType : Option MealType) : MealState :=
  let s := observeState env { user_id := userId, meal_type := mealType } image text
  { s with agent_calls := s.agent_calls ++ ["VisionAnalyst"] }

/-- The body of the `try` block of `process`: an error carries the exception
message together with the state at the raise point (Python mutates the one
`state` object in place, so the `except` clause sees it). -/
def runInner (env : Env) (state0 : MealState) (image : Option (List Nat))
    (text : Option String) (profile : Option UserProfile) :
    Except (String × MealState) MealState :=
  match observePhase env state0 image text with
  | .error e => .error (e, state0)
  | .ok s1 =>
    let s1 := { s1 with agent_calls := s1.agent_calls ++ ["VisionAnalyst"] }
    -- `is_image=image_bytes is not None` (identity test, not truthiness)
    if isExtractionFailed s1 image.isSome then
      .ok { handleExtractionFailure s1 image.isSome with
            processing_time_ms := some env.elapsedMs }
    else
      match thinkPhase env s1 profile with
      | .error e => .error (e, s1)
      | .ok (s2, pending) =>
        let s2 := { s2 with agent_calls := s2.agent_calls ++ ["BioDataScout", "NutriAuditor"] }
        match actPhase s2 profile pending with
        | .error e => .error (e, s2)
        | .ok s3 =>
          let s3 := { s3 with agent_calls := s3.agent_calls ++ ["Orchestrator.act"] }
          .ok { s3 with processing_time_ms := some env.elapsedMs }

/-- `StudioOrchestrator.process`: validate the input, run the pipeline,
absorb any stage exception into a diagnostic state.  Only the input
validation error is surfaced to the caller. -/
def process (env : Env) (userId : String) (image : Option (List Nat))
    (text : Option String) (mealType : Option MealType)
    (profile : Option UserProfile) : Except String MealState :=
  if !truthyBytes image && !truthyText text then .error valErrMsg
  else
    let state0 : MealState := { user_id := userId, meal_type := mealType }
    match runInner env state0 image text profile with
    | .ok s => .ok s
    | .error (e, st) =>
      .ok { st with summary := some ("Analysis failed: " ++ e),
                    overall_score := some 0,
                    processing_time_ms := some env.elapsedMs }

/-! ## GoalEvaluator (`goal_evaluator.py`)

The marker strings in `goal_evaluator.py` are stored double-encoded in the
source file (mojibake); they are transcribed below codepoint for codepoint
as the file actually contains them. -/

/-- Marker of the over-target feedback lines (source bytes of `⚠️`). -/
def evalWarnMark : String := "‚ö†Ô∏è"

/-- Marker of the under-target feedback lines (source bytes of `📊`). -/
def evalChartMark : String := "üìä"

/-- Marker of the positive feedback line (source bytes of `✅`). -/
def evalCheckMark : String := "‚úÖ"

/-- Marker of the avoided-food feedback lines (source bytes of `🚫`). -/
def evalBanMark : String := "üö´"

/-- Source bytes of `≤` in the max-rule feedback. -/
def leMark : String := "‚â§"

/-- Source bytes of `≥` in the min-rule feedback. -/
def geMark : String := "‚â•"

/-- `goal.value`. -/
def goalValue : HealthGoal → String
  | .weight_loss => "weight_loss"
  | .weight_gain => "weight_gain"
  | .glycemic_control => "glycemic_control"
  | .lower_cholesterol => "lower_cholesterol"
  | .heart_health => "heart_health"
  | .muscle_building => "muscle_building"
  | .general_wellness => "general_wellness"

/-- `goal.value.replace('_', ' ')`. -/
def goalSpaced : HealthGoal → String
  | .weight_loss => "weight loss"
  | .weight_gain => "weight gain"
  | .glycemic_control => "glycemic control"
  | .lower_cholesterol => "lower cholesterol"
  | .heart_health => "heart health"
  | .muscle_building => "muscle building"
  | .general_wellness => "general wellness"

/-- `goal.value.replace('_', ' ').title()`. -/
def goalTitle : HealthGoal → String
  | .weight_loss => "Weight Loss"
  | .weight_gain => "Weight Gain"
  | .glycemic_control => "Glycemic Control"
  | .lower_cholesterol => "Lower Cholesterol"
  | .heart_health => "Heart Health"
  | .muscle_building => "Muscle Building"
  | .general_wellness => "General Wellness"

/-- `condition.value.replace('_', ' ').title()`. -/
def condTitle : HealthCondition → String
  | .type_2_diabetes => "Type 2 Diabetes"
  | .type_1_diabetes => "Type 1 Diabetes"
  | .hypertension => "Hypertension"
  | .high_cholesterol => "High Cholesterol"
  | .celiac_disease => "Celiac Disease"
  | .lactose_intolerant => "Lactose Intolerant"
  | .kidney_disease => "Kidney Disease"
  | .cond_none => "None"

/-! Python dicts `str → float` as association lists (insertion order,
last-write-wins). -/

/-- Dict assignment `d[k] = v`. -/
def dset : List (String × ℚ) → String → ℚ → List (String × ℚ)
  | [], k, v => [(k, v)]
  | p :: rest, k, v => if p.1 == k then (k, v) :: rest else p :: dset rest k v

/-- Dict lookup, as an option. -/
def dgetOpt (d : List (String × ℚ)) (k : String) : Option ℚ :=
  d.foldl (fun acc p => if p.1 == k then some p.2 else acc) none

/-- `d.get(k, 0)`. -/
def dget (d : List (String × ℚ)) (k : String) : ℚ :=
  (dgetOpt d k).getD 0

/-- `k in d`. -/
def dhas (d : List (String × ℚ)) (k : String) : Bool :=
  d.any (fun p => p.1 == k)

/-- Default nutrient keys ensured by `_extract_nutrients`, in source order. -/
def nutrientDefaults : List (String × ℚ) :=
  [("calories", 0), ("protein", 0), ("carbohydrates", 0), ("carbs", 0),
   ("fat", 0), ("fiber", 0), ("sodium", 0), ("sugar", 0)]

/-- `GoalEvaluator._extract_nutrients`. -/
def extractNutrients (meal : MealState) : List (String × ℚ) :=
  let d := meal.total_nutrients.foldl
    (fun d n => dset d (pyLower n.name) n.amount) []
  let d := nutrientDefaults.foldl
    (fun d p => if dhas d p.1 then d else d ++ [p]) d
  if 0 < dget d "carbohydrates" then dset d "carbs" (dget d "carbohydrates") else d

/-- One rule of `GOAL_NUTRIENT_RULES`: `max_percent` or `min_percent`
(every rule in the table has exactly one), plus a weight. -/
inductive RuleKind
  | maxPct (pct : ℤ)
  | minPct (pct : ℤ)
deriving DecidableEq, Repr

/-- A `(nutrient, rule)` pair of `GOAL_NUTRIENT_RULES`. -/
structure NutrientRule where
  nutrient : String
  kind : RuleKind
  weight : ℚ
deriving DecidableEq, Repr

/-- `GOAL_NUTRIENT_RULES`, in dict insertion order. -/
def goalRules : HealthGoal → List NutrientRule
  | .weight_loss =>
      [⟨"calories", .maxPct 90, q040⟩, ⟨"protein", .minPct 100, q030⟩,
       ⟨"fiber", .minPct 100, q020⟩, ⟨"sugar", .maxPct 80, q010⟩]
  | .glycemic_control =>
      [⟨"sugar", .maxPct 60, q040⟩, ⟨"carbs", .maxPct 80, q030⟩,
       ⟨"fiber", .minPct 120, q020⟩, ⟨"protein", .minPct 100, q010⟩]
  | .lower_cholesterol =>
      [⟨"fiber", .minPct 120, q040⟩, ⟨"fat", .maxPct 80, q030⟩,
       ⟨"sodium", .maxPct 90, q020⟩, ⟨"protein", .minPct 90, q010⟩]
  | .heart_health =>
      [⟨"sodium", .maxPct 70, q040⟩, ⟨"fiber", .minPct 100, q030⟩,
       ⟨"fat", .maxPct 85, q020⟩, ⟨"sugar", .maxPct 80, q010⟩]
  | .weight_gain =>
      [⟨"calories", .minPct 120, q040⟩, ⟨"protein", .minPct 130, q035⟩,
       ⟨"carbs", .minPct 110, q025⟩]
  | .muscle_building =>
      [⟨"protein", .minPct 150, qHalf⟩, ⟨"calories", .minPct 100, q030⟩,
       ⟨"carbs", .minPct 100, q020⟩]
  | .general_wellness =>
      [⟨"protein", .minPct 90, q025⟩, ⟨"fiber", .minPct 90, q025⟩,
       ⟨"sodium", .maxPct 100, q025⟩, ⟨"sugar", .maxPct 100, q025⟩]

/-- The `target_map` of `_evaluate_goal`, with `.get(nutrient, 0)`. -/
def targetOf (t : DailyNutrientTargets) : String → ℚ
  | "calories" => t.calories
  | "protein" => t.protein_g
  | "carbs" => t.carbs_g
  | "fat" => t.fat_g
  | "fiber" => t.fiber_g
  | "sodium" => t.sodium_mg
  | "sugar" => t.sugar_g
  | _ => 0

/-- Accumulator of the rule loop in `_evaluate_goal`. -/
structure GoalEvalAcc where
  total_score : ℚ := 0
  total_weight : ℚ := 0
  feedback : List String := []
  recommendations : List String := []
deriving DecidableEq, Repr

/-- One iteration of the `for nutrient, rule in rules.items()` loop. -/
def evalRule (g : HealthGoal) (nutrients : List (String × ℚ))
    (targets : DailyNutrientTargets) (acc : GoalEvalAcc) (rule : NutrientRule) :
    GoalEvalAcc :=
  let target := targetOf targets rule.nutrient
  if target == 0 then acc
  else
    let actual := dget nutrients rule.nutrient
    let pct := actual / target * 100
    let weight := rule.weight
    match rule.kind with
    | .maxPct m =>
      let score : ℚ := if pct ≤ (m : ℚ) then 100 else pyMax 0 (100 - (pct - m) * 2)
      let acc :=
        if score < 50 then
          { acc with
            feedback := acc.feedback ++
              [evalWarnMark ++ " " ++ goalTitle g ++ ": " ++ pyTitle rule.nutrient
                ++ " is " ++ fmtF0 pct ++ "% of target " ++ "(goal: " ++ leMark
                ++ toString m ++ "%)"],
            recommendations := acc.recommendations ++
              ["Reduce " ++ rule.nutrient ++ " intake for your " ++ goalSpaced g
                ++ " goal"] }
        else acc
      { acc with total_score := acc.total_score + score * weight,
                 total_weight := acc.total_weight + weight }
    | .minPct m =>
      let score : ℚ := if (m : ℚ) ≤ pct then 100 else pyMax 0 (100 - ((m : ℚ) - pct))
      let acc :=
        if score < 50 then
          { acc with
            feedback := acc.feedback ++
              [evalChartMark ++ " " ++ goalTitle g ++ ": " ++ pyTitle rule.nutrient
                ++ " is " ++ fmtF0 pct ++ "% of target " ++ "(goal: " ++ geMark
                ++ toString m ++ "%)"],
            recommendations := acc.recommendations ++
              ["Increase " ++ rule.nutrient ++ " intake for your " ++ goalSpaced g
                ++ " goal"] }
        else acc
      { acc with total_score := acc.total_score + score * weight,
                 total_weight := acc.total_weight + weight }

/-- `GoalEvaluator._evaluate_goal`: `(score, feedback, recommendations)`. -/
def evaluateGoal (g : HealthGoal) (nutrients : List (String × ℚ))
    (profile : UserProfile) : ℚ × List String × List String :=
  let rules := goalRules g
  if rules.isEmpty then (50, [], [])
  else
    let acc := rules.foldl (evalRule g nutrients profile.daily_targets) {}
    let final := if 0 < acc.total_weight then acc.total_score / acc.total_weight else 50
    let feedback :=
      if 80 ≤ final ∧ acc.feedback.isEmpty then
        [evalCheckMark ++ " Great job! This meal aligns well with your "
          ++ goalSpaced g ++ " goal!"]
      else acc.feedback
    (pyRound1 final, feedback, acc.recommendations)

/-- `CONDITION_RESTRICTIONS[..]["sugar_max_g"]`. -/
def sugarMaxOf : HealthCondition → Option ℤ
  | .type_2_diabetes => some 25
  | .type_1_diabetes => some 30
  | _ => none

/-- `CONDITION_RESTRICTIONS[..]["sodium_max_mg"]`. -/
def sodiumMaxOf : HealthCondition → Option ℤ
  | .hypertension => some 1500
  | .kidney_disease => some 1500
  | _ => none

/-- `CONDITION_RESTRICTIONS[..]["carbs_max_g"]`. -/
def carbsMaxOf : HealthCondition → Option ℤ
  | .type_2_diabetes => some 150
  | _ => none

/-- `CONDITION_RESTRICTIONS[..]["avoid_foods"]`. -/
def avoidFoodsOf : HealthCondition → List String
  | .celiac_disease => ["wheat", "barley", "rye", "bread", "pasta"]
  | .lactose_intolerant => ["milk", "cheese", "yogurt", "ice cream"]
  | _ => []

/-- The feedback contributed by one health condition in `_check_conditions`
(the `fat_max_g` and `protein_max_g` entries of the table are never read). -/
def checkCondition (c : HealthCondition) (meal : MealState)
    (nutrients : List (String × ℚ)) : List String :=
  if c == .cond_none then []
  else
    (match sugarMaxOf c with
      | some m =>
        if (m : ℚ) < dget nutrients "sugar" then
          [evalWarnMark ++ " " ++ condTitle c ++ ": " ++ "Sugar ("
            ++ fmtF0 (dget nutrients "sugar") ++ "g) exceeds recommended max ("
            ++ toString m ++ "g)"]
        else []
      | none => []) ++
    (match sodiumMaxOf c with
      | some m =>
        if (m : ℚ) < dget nutrients "sodium" then
          [evalWarnMark ++ " " ++ condTitle c ++ ": " ++ "Sodium ("
            ++ fmtF0 (dget nutrients "sodium") ++ "mg) exceeds recommended max ("
            ++ toString m ++ "mg)"]
        else []
      | none => []) ++
    (match carbsMaxOf c with
      | some m =>
        let carbs := if !(dget nutrients "carbs" == 0) then dget nutrients "carbs"
          else dget nutrients "carbohydrates"
        if (m : ℚ) < carbs then
          [evalWarnMark ++ " " ++ condTitle c ++ ": " ++ "Carbs ("
            ++ fmtF0 carbs ++ "g) exceeds recommended max (" ++ toString m ++ "g)"]
        else []
      | none => []) ++
    (meal.detected_foods.foldl (fun acc fd =>
      let nm := pyLower fd.name
      match (avoidFoodsOf c).find? (fun a => pyContains nm a) with
      | some a => acc ++
          [evalBanMark ++ " " ++ condTitle c ++ ": " ++ "'" ++ nm
            ++ "' may not be suitable - contains " ++ a]
      | none => acc) [])

/-- `GoalEvaluation` result model. -/
structure GoalEvaluation where
  alignment_score : ℚ
  goal_scores : List (String × ℚ)
  feedback : List String
  recommendations : List String
deriving DecidableEq, Repr

/-- The feedback line returned for a profile without goals. -/
def setupPrompt : String := "Set up your health goals to get personalized feedback!"

/-- `GoalEvaluator.process` (the profile is always a model instance, hence
truthy; the guard reduces to `profile.goals` being empty). -/
def goalEvaluatorProcess (meal : MealState) (profile : UserProfile) :
    GoalEvaluation :=
  if profile.goals.isEmpty then
    { alignment_score := 50, goal_scores := [], feedback := [setupPrompt],
      recommendations := [] }
  else
    let nutrients := extractNutrients meal
    let step := profile.goals.foldl
      (fun (acc : List (String × ℚ) × List String × List String) g =>
        let r := evaluateGoal g nutrients profile
        (dset acc.1 (goalValue g) r.1, acc.2.1 ++ r.2.1, acc.2.2 ++ r.2.2))
      ([], [], [])
    let goalScores := step.1
    let allFeedback := step.2.1 ++
      profile.conditions.foldl (fun acc c => acc ++ checkCondition c meal nutrients) []
    let alignment := if !goalScores.isEmpty then
        (goalScores.map (fun p => p.2)).sum / (goalScores.length : ℚ)
      else 50
    { alignment_score := pyRound1 alignment,
      goal_scores := goalScores,
      feedback := allFeedback.take 5,
      recommendations := step.2.2.take 3 }

/-! ## Shared lemmas -/

/-- `pyMin` is `min`. -/
theorem pyMin_eq (a b : ℚ) : pyMin a b = min a b := (min_def a b).symm

/-- `pyMax` is `max`. -/
theorem pyMax_eq (a b : ℚ) : pyMax a b = max a b := (max_def a b).symm

/-- Clamping to `[0, 100]` is monotone. -/
theorem clamp_mono {a b : ℚ} (h : a ≤ b) :
    pyMax 0 (pyMin 100 a) ≤ pyMax 0 (pyMin 100 b) := by
  simp only [pyMin_eq, pyMax_eq]
  exact max_le_max le_rfl (min_le_min le_rfl h)

/-- The protein `if/elif` chain adds exactly the protein bonus. -/
theorem step_protein (t p : ℚ) :
    (if 30 ≤ p then t + 15 else if 20 ≤ p then t + 10 else if 10 ≤ p then t + 5 else t)
      = t + proteinBonus p := by
  unfold proteinBonus; split_ifs <;> ring

/-- The fiber `if/elif` chain adds exactly the fiber bonus. -/
theorem step_fiber (t f : ℚ) :
    (if 8 ≤ f then t + 10 else if 5 ≤ f then t + 5 else t) = t + fiberBonus f := by
  unfold fiberBonus; split_ifs <;> ring

/-- The sodium `if/elif` chain subtracts exactly the sodium penalty. -/
theorem step_sodium (t na : ℚ) :
    (if 1000 < na then t - 10 else if 800 < na then t - 5 else t)
      = t - sodiumPenalty na := by
  unfold sodiumPenalty; split_ifs <;> ring

/-- The variety `if/elif` chain adds exactly the variety bonus. -/
theorem step_variety (t : ℚ) (n : ℕ) :
    (if 4 ≤ n then t + 10 else if 3 ≤ n then t + 5 else t) = t + varietyBonus n := by
  unfold varietyBonus; split_ifs <;> ring

/-- The sequential score updates compute the additive formula. -/
theorem scoreSteps_eq (p f na : ℚ) (k n : ℕ) :
      (let score : ℚ := 70
       let score := if 30 ≤ p then score + 15
         else if 20 ≤ p then score + 10
         else if 10 ≤ p then score + 5
         else score
       let score := if 8 ≤ f then score + 10
         else if 5 ≤ f then score + 5
         else score
       let score := if 1000 < na then score - 10
         else if 800 < na then score - 5
         else score
       let score := score - (k : ℚ) * 10
       let score := if 4 ≤ n then score + 10
         else if 3 ≤ n then score + 5
         else score
       pyMax 0 (pyMin 100 score)) =
      pyMax 0 (pyMin 100 (70 + proteinBonus p + fiberBonus f - sodiumPenalty na
        - 10 * (k : ℚ) + varietyBonus n)) := by
  simp only [step_protein, step_fiber, step_sodium, step_variety]
  ring_nf

/-- `_calculate_meal_score` computes the spec's additive formula, with the
variety bonus counting the entries of `detected_foods`. -/
theorem score_eq_entries (s : MealState) :
    calculateMealScore s = specMealScoreEntries s :=
  scoreSteps_eq (nutrientAmount s.total_nutrients "protein")
    (nutrientAmount s.total_nutrients "fiber")
    (nutrientAmount s.total_nutrients "sodium")
    (seriousCount s.constraint_violations)
    s.detected_foods.length

/-! ## Claim C4 — the meal scoring algorithm -/

/-- A food item duplicated in the counterexample state. -/
def c4Food : FoodItem :=
  { name := "apple", portion_grams := 180, portion_description := "1 medium",
    confidence := 1 }

/-- A state whose `detected_foods` has 4 entries but only 1 distinct food. -/
def c4State : MealState :=
  { user_id := "u", detected_foods := List.replicate 4 c4Food }

/-- C4, counterexample: the claim reads the variety bonus off "at least 4
**distinct** detected foods".  On a state holding the same food item four
times, the code pays the +10 bonus (score 80) while the claimed formula,
which sees one distinct food, pays none (score 70). -/
theorem C4_counterexample :
    calculateMealScore c4State = 80 ∧ specMealScoreDistinct c4State = 70 := by
  have hd : c4State.detected_foods.dedup.length = 1 := by decide
  have hn : c4State.detected_foods.length = 4 := by decide
  have hp : nutrientAmount c4State.total_nutrients "protein" = 0 := by decide
  have hf : nutrientAmount c4State.total_nutrients "fiber" = 0 := by decide
  have hs : nutrientAmount c4State.total_nutrients "sodium" = 0 := by decide
  have hv : seriousCount c4State.constraint_violations = 0 := by decide
  constructor
  · rw [score_eq_entries]
    simp only [specMealScoreEntries, hp, hf, hs, hv, hn]
    norm_num [proteinBonus, fiberBonus, sodiumPenalty, varietyBonus, pyMax, pyMin]
  · simp only [specMealScoreDistinct, hp, hf, hs, hv, hd]
    norm_num [proteinBonus, fiberBonus, sodiumPenalty, varietyBonus, pyMax, pyMin]

/-- C4 (amended): the meal score is the deterministic pure formula of the
claim — base 70, protein bonus 15/10/5 at ≥30/≥20/≥10 g, fiber bonus 10/5 at
≥8/≥5 g, sodium penalty 10/5 over 1000/800 mg, −10 per serious violation
(no soft-warning marker), variety bonus +10/+5 for ≥4/≥3 **entries** of
`detected_foods` (duplicates counted), clamped to [0, 100]. -/
theorem C4_meal_score_formula (s : MealState) :
    calculateMealScore s = specMealScoreEntries s :=
  score_eq_entries s

/-! ## Claim C9 — monotonicity across the protein tier boundary -/

/-- C9: two states identical except for the protein total — 15 g in one,
25 g in the other (fiber and sodium lookups agree) — score no worse with
25 g: the protein tier bonus is monotone and clamping preserves order. -/
theorem C9_protein_monotone (s : MealState) (l15 l25 : List NutrientInfo)
    (hp15 : nutrientAmount l15 "protein" = 15)
    (hp25 : nutrientAmount l25 "protein" = 25)
    (hfib : nutrientAmount l25 "fiber" = nutrientAmount l15 "fiber")
    (hsod : nutrientAmount l25 "sodium" = nutrientAmount l15 "sodium") :
    calculateMealScore { s with total_nutrients := l15 }
      ≤ calculateMealScore { s with total_nutrients := l25 } := by
  rw [score_eq_entries, score_eq_entries]
  simp only [specMealScoreEntries]
  rw [hp15, hp25, hfib, hsod]
  apply clamp_mono
  have h5 : proteinBonus 15 = 5 := by norm_num [proteinBonus]
  have h10 : proteinBonus 25 = 10 := by norm_num [proteinBonus]
  rw [h5, h10]
  linarith

/-- C9, witness: the monotonicity theorem applied to two concrete states. -/
theorem C9_witness :
    nutrientAmount [⟨"protein", 15⟩] "protein" = 15 ∧
    nutrientAmount [⟨"protein", 25⟩] "protein" = 25 ∧
    calculateMealScore { user_id := "u", total_nutrients := [⟨"protein", 15⟩] }
      ≤ calculateMealScore { user_id := "u", total_nutrients := [⟨"protein", 25⟩] } :=
  ⟨by decide, by decide,
    C9_protein_monotone { user_id := "u" } [⟨"protein", 15⟩] [⟨"protein", 25⟩]
      (by decide) (by decide) (by decide) (by decide)⟩

/-! ## Claim C5 — text parsing -/

/-- Two matched spans (index lists) share no text position. -/
def spanDisj (s t : List Nat) : Prop := ∀ i, i ∈ s → i ∈ t → False

/-- The matching loop never grows the matched list beyond 6 items. -/
theorem scanFoods_length_le (vocab : List (String × ℚ × String))
    (text : List Char) (spans : List (List Nat)) (acc : List FoodItem) :
    (scanFoods vocab text spans acc).2.length ≤ max acc.length 6 := by
  induction vocab generalizing spans acc with
  | nil => simp [scanFoods]
  | cons e rest ih =>
    simp only [scanFoods]
    split
    · simp
    · split
      · exact ih _ _
      · split
        · refine le_trans (ih _ _) ?_
          simp only [List.length_append, List.length_singleton]
          omega
        · exact ih _ _

/-- Every span accepted by the matching loop is disjoint from all previously
accepted spans, so the accepted spans are pairwise disjoint. -/
theorem scanFoods_spans_pairwise (vocab : List (String × ℚ × String))
    (text : List Char) (spans : List (List Nat)) (acc : List FoodItem)
    (h : spans.Pairwise spanDisj) :
    (scanFoods vocab text spans acc).1.Pairwise spanDisj := by
  induction vocab generalizing spans acc with
  | nil => simpa [scanFoods] using h
  | cons e rest ih =>
    simp only [scanFoods]
    split
    · exact h
    · split
      · exact ih _ _ h
      · split
        · next hall =>
          apply ih
          rw [List.pairwise_append]
          refine ⟨h, List.pairwise_singleton _ _, ?_⟩
          intro s hs t ht i his hit
          simp only [List.mem_singleton] at ht
          subst ht
          have h1 := List.all_eq_true.mp hall i hit
          have h2 := List.all_eq_true.mp h1 s hs
          simp only [Bool.not_eq_true'] at h2
          exact absurd his (by simpa using h2)
        · exact ih _ _ h

/-- If no vocabulary entry occurs in the text, the matching loop returns its
accumulators unchanged. -/
theorem scanFoods_no_match (vocab : List (String × ℚ × String))
    (text : List Char) (spans : List (List Nat)) (acc : List FoodItem)
    (h : ∀ e ∈ vocab, findFrom text e.1.toList 0 = none) :
    scanFoods vocab text spans acc = (spans, acc) := by
  induction vocab with
  | nil => simp [scanFoods]
  | cons e rest ih =>
    simp only [scanFoods]
    split
    · rfl
    · rw [h e (List.mem_cons_self e rest)]
      exact ih fun f hf => h f (List.mem_cons_of_mem e hf)

/-- C5: text parsing scans the static vocabulary in decreasing phrase-length
order (a stable sort of `common_foods`), accepts only pairwise-disjoint text
spans, caps the matched list at 6 items, synthesizes exactly one
low-confidence item from the stripped text truncated to 50 characters when
nothing matches, and on "grilled chicken breast with rice and broccoli"
yields exactly the three items "grilled chicken breast", "broccoli",
"rice". -/
theorem C5_text_parsing :
    (List.Sorted longerName sortedFoods ∧ sortedFoods.Perm commonFoods)
    ∧ (∀ text : String, (parseTextResult text).2.1.length ≤ 6)
    ∧ (∀ text : String, (parseTextResult text).1.Pairwise spanDisj)
    ∧ (∀ text : String,
        (∀ e ∈ commonFoods, findFrom (text.toList.map Char.toLower) e.1.toList 0 = none) →
        parseTextResult text =
          ([], [{ name := if stripTake text 50 == "" then "meal" else stripTake text 50,
                  portion_grams := 300, portion_description := "1 serving",
                  confidence := q040 }], q030))
    ∧ ((parseTextResult "grilled chicken breast with rice and broccoli").2.1.map
          (fun f => f.name) = ["grilled chicken breast", "broccoli", "rice"]) := by
  refine ⟨⟨List.sorted_insertionSort _ _, List.perm_insertionSort _ _⟩, ?_, ?_, ?_, ?_⟩
  · intro text
    simp only [parseTextResult]
    split
    · simp
    · have := scanFoods_length_le sortedFoods (text.toList.map Char.toLower) [] []
      simpa using this
  · intro text
    simp only [parseTextResult]
    split
    · simp
    · exact scanFoods_spans_pairwise _ _ _ _ (by simp)
  · intro text h
    have hs : ∀ e ∈ sortedFoods,
        findFrom (text.toList.map Char.toLower) e.1.toList 0 = none :=
      fun e he => h e ((List.perm_insertionSort longerName commonFoods).subset he)
    simp only [parseTextResult]
    rw [scanFoods_no_match _ _ _ _ hs]
    simp [stripTake]
  · decide

/-- C5, witness: "pad thai" matches no vocabulary entry, and the theorem's
fallback clause produces the single synthesized item. -/
theorem C5_witness :
    (∀ e ∈ commonFoods,
      findFrom ("pad thai".toList.map Char.toLower) e.1.toList 0 = none) ∧
    parseTextResult "pad thai" =
      ([], [{ name := if stripTake "pad thai" 50 == "" then "meal"
                else stripTake "pad thai" 50,
              portion_grams := 300, portion_description := "1 serving",
              confidence := q040 }], q030) :=
  ⟨by decide, C5_text_parsing.2.2.2.1 "pad thai" (by decide)⟩

/-! ## Claim C6 — glycemic-control suggestions and the missing `SWAP` member -/

/-- Meal totals that fire the glycemic-control swap rule: 60 g carbs, 2 g
fiber (and no sugar). -/
def c6State : MealState :=
  { user_id := "u",
    total_nutrients := [⟨"carbohydrates", 60⟩, ⟨"fiber", 2⟩] }

/-- A profile whose goals include glycemic control. -/
def c6Profile : UserProfile :=
  { user_id := "u", goals := [.glycemic_control] }

/-- C6: the claim says the swap rule (carbs > 50 g and fiber < 5 g) produces
an adjustment whose action is in the `reduce/replace/remove/add` enum and the
pipeline completes normally.  In fact `orchestrator.py` line 570 evaluates
`AdjustmentAction.SWAP`, a member the enum does not have, so the rule raises
`AttributeError("SWAP")`: at the failing input `_generate_goal_suggestions`
— and with it the ACT phase — aborts instead of returning suggestions. -/
theorem C6_swap_attribute_error :
    generateGoalSuggestions c6State c6Profile = .error attrErrSWAP ∧
    actPhase c6State (some c6Profile) none = .error attrErrSWAP :=
  ⟨rfl, rfl⟩

/-! ## Claim C7 — the 3-suggestion cap -/

/-- Whenever `_generate_goal_suggestions` returns a list, it has at most 3
elements (shared helper). -/
theorem gen_length_le (state : MealState) (profile : UserProfile)
    (l : List MealAdjustment)
    (h : generateGoalSuggestions state profile = .ok l) : l.length ≤ 3 := by
  unfold generateGoalSuggestions at h
  cases hc : collectGoalSuggestions state profile with
  | error e => rw [hc] at h; exact absurd h (by simp [Except.map])
  | ok raw =>
    rw [hc] at h
    simp only [Except.map] at h
    have hl := Except.ok.inj h
    subst hl
    exact List.length_take_le 3 _

/-- C7: whenever `_generate_goal_suggestions` returns, the result has at most
3 adjustments and is obtained from the union of all per-goal suggestions by a
stable sort on ascending priority followed by truncation to the first 3. -/
theorem C7_suggestion_cap (state : MealState) (profile : UserProfile)
    (l : List MealAdjustment)
    (h : generateGoalSuggestions state profile = .ok l) :
    l.length ≤ 3 ∧
    ∃ raw full, collectGoalSuggestions state profile = .ok raw ∧
      full.Perm raw ∧ List.Sorted priLE full ∧ l = full.take 3 := by
  refine ⟨gen_length_le state profile l h, ?_⟩
  unfold generateGoalSuggestions at h
  cases hc : collectGoalSuggestions state profile with
  | error e => rw [hc] at h; exact absurd h (by simp [Except.map])
  | ok raw =>
    rw [hc] at h
    simp only [Except.map] at h
    have hl := Except.ok.inj h
    exact ⟨raw, List.insertionSort priLE raw, rfl, List.perm_insertionSort _ _,
      List.sorted_insertionSort _ _, hl.symm⟩

/-- State and profile for the C7 witness: two goals generate three
suggestions in total. -/
def c7Profile : UserProfile :=
  { user_id := "u", goals := [.general_wellness, .heart_health] }

/-- C7, witness: the cap theorem applied to a concrete profile with two
goals whose rules generate three suggestions. -/
theorem C7_witness :
    ∃ l, generateGoalSuggestions { user_id := "u" } c7Profile = .ok l ∧
      l.length ≤ 3 ∧
      ∃ raw full, collectGoalSuggestions { user_id := "u" } c7Profile = .ok raw ∧
        full.Perm raw ∧ List.Sorted priLE full ∧ l = full.take 3 :=
  ⟨_, rfl, C7_suggestion_cap { user_id := "u" } c7Profile _ rfl⟩

/-! ## Claim C10 — the ACT phase produces at most 4 adjustments -/

/-- The synthesized carb adjustment is itself carb/glucose-related (its
reason mentions "glucose"), so the duplicate check fires afterwards. -/
theorem carbRelated_mkCarbAdj (f : FoodItem) : carbRelated (mkCarbAdj f) = true := rfl

/-- Once a carb/glucose-related adjustment exists, the violation loop is the
identity. -/
theorem carbLoop_fixed (g : Bool) (foods : List FoodItem) (vs : List String)
    (adjs : List MealAdjustment) (h : adjs.any carbRelated = true) :
    carbViolationLoop g foods vs adjs = adjs := by
  induction vs with
  | nil => rfl
  | cons v rest ih =>
    simp only [carbViolationLoop, h, if_true]
    split <;> exact ih

/-- The violation loop appends at most one adjustment. -/
theorem carbLoop_length (g : Bool) (foods : List FoodItem) (vs : List String)
    (adjs : List MealAdjustment) :
    (carbViolationLoop g foods vs adjs).length ≤ adjs.length + 1 := by
  induction vs generalizing adjs with
  | nil => simp [carbViolationLoop]
  | cons v rest ih =>
    simp only [carbViolationLoop]
    split
    · split
      · exact le_trans (ih adjs) (by omega)
      · cases hf : firstHighCarbAdj foods with
        | none => exact le_trans (ih adjs) (by omega)
        | some adj =>
          obtain ⟨f, hf1, rfl⟩ := Option.map_eq_some'.mp hf
          have hany : (adjs ++ [mkCarbAdj f]).any carbRelated = true := by
            simp [List.any_append, carbRelated_mkCarbAdj]
          show (carbViolationLoop g foods rest (adjs ++ [mkCarbAdj f])).length ≤
            adjs.length + 1
          rw [carbLoop_fixed g foods rest (adjs ++ [mkCarbAdj f]) hany]
          simp
    · exact le_trans (ih adjs) (by omega)

/-- C10: whenever `_act` completes with a profile holding at least one goal,
the final adjustments list has at most 4 entries — at most 3 from the rule
engine plus at most one synthesized carb-reduction (the duplicate check
suppresses further additions once one exists). -/
theorem C10_act_adjustment_bound (state : MealState) (profile : UserProfile)
    (pending : Option (List MealAdjustment)) (s : MealState)
    (hg : profile.goals ≠ [])
    (h : actPhase state (some profile) pending = .ok s) :
    s.adjustments.length ≤ 4 := by
  have hne : profile.goals.isEmpty = false := by
    cases hgl : profile.goals with
    | nil => exact absurd hgl hg
    | cons a l => rfl
  simp only [actPhase, hne, Bool.not_false, if_true] at h
  cases hc : generateGoalSuggestions state profile with
  | error e => rw [hc] at h; exact absurd h (by simp [Except.map])
  | ok l =>
    rw [hc] at h
    simp only [Except.map] at h
    have hb := gen_length_le state profile l hc
    have hs := Except.ok.inj h
    subst hs
    dsimp only
    split
    · exact le_trans (carbLoop_length _ _ _ _) (by omega)
    · show l.length ≤ 4
      omega

/-- Concrete ACT input for the C10 witness: one heart-health suggestion plus
one synthesized carb reduction. -/
def c10Rice : FoodItem :=
  { name := "white rice", portion_grams := 200, portion_description := "1 cup",
    confidence := q090, nutrients := [⟨"carbohydrates", 45⟩] }

def c10State : MealState :=
  { user_id := "u",
    detected_foods := [c10Rice],
    total_nutrients := [⟨"sodium", 700⟩, ⟨"fiber", 10⟩, ⟨"protein", 30⟩],
    constraint_violations := ["Exceeded carbohydrate limit"] }

/-- Profile for the C10 witness: one goal, diabetic condition. -/
def c10Profile : UserProfile :=
  { user_id := "u", goals := [.heart_health], conditions := [.type_2_diabetes] }

/-- C10, witness: the bound applied to a concrete completed ACT phase. -/
theorem C10_witness :
    c10Profile.goals ≠ [] ∧
    ∃ s, actPhase c10State (some c10Profile) none = .ok s ∧
      s.adjustments.length ≤ 4 :=
  ⟨by decide, _, rfl,
    C10_act_adjustment_bound c10State c10Profile none _ (by decide) rfl⟩

/-! ## Claim C1 — the extraction-failure gate -/

/-- OBSERVE never touches `agent_calls`. -/
theorem observeState_agent_calls (env : Env) (st : MealState)
    (img : Option (List Nat)) (txt : Option String) :
    (observeState env st img txt).agent_calls = st.agent_calls := by
  unfold observeState
  split
  · split
    · split <;> rfl
    · rfl
  · split <;> rfl

/-- When the gate fires after a successful OBSERVE, `process` returns the
handled failure state with the elapsed time recorded. -/
theorem process_gate (env : Env) (uid : String) (img : Option (List Nat))
    (txt : Option String) (mt : Option MealType) (profile : Option UserProfile)
    (himg : truthyBytes img = true) (hobs : env.raiseObserve = none)
    (hgate : isExtractionFailed (stateAfterObserve env uid img txt mt) img.isSome = true) :
    process env uid img txt mt profile =
      .ok { handleExtractionFailure (stateAfterObserve env uid img txt mt) img.isSome with
            processing_time_ms := some env.elapsedMs } := by
  have hval : (!truthyBytes img && !truthyText txt) = false := by rw [himg]; rfl
  simp only [stateAfterObserve] at hgate
  simp only [process, runInner, observePhase, hobs, hval, Bool.false_eq_true,
    if_false, hgate, if_true, stateAfterObserve]

/-- C1: (i) for an image run the extraction-failure gate fires exactly when
zero foods were detected and confidence is below 0.15, or when confidence is
below 0.10 regardless of food count; (ii) whenever it fires after OBSERVE,
`process` returns a state with `detected_foods`, `total_nutrients`,
`adjustments` and `constraint_violations` all empty, `overall_score = 0`,
the image-specific explanatory summary, the elapsed time recorded, and
`agent_calls = ["VisionAnalyst"]` — Think and Act never run. -/
theorem C1_extraction_gate :
    (∀ s : MealState, isExtractionFailed s true = true ↔
      ((s.detected_foods = [] ∧ s.image_analysis_confidence < q015) ∨
        s.image_analysis_confidence < q010))
    ∧ ∀ (env : Env) (uid : String) (img : Option (List Nat)) (txt : Option String)
        (mt : Option MealType) (profile : Option UserProfile),
        truthyBytes img = true → env.raiseObserve = none →
        isExtractionFailed (stateAfterObserve env uid img txt mt) true = true →
        ∃ s, process env uid img txt mt profile = .ok s ∧
          s.detected_foods = [] ∧ s.total_nutrients = [] ∧ s.adjustments = [] ∧
          s.constraint_violations = [] ∧ s.overall_score = some 0 ∧
          s.summary = some imageFailureSummary ∧
          s.processing_time_ms = some env.elapsedMs ∧
          s.agent_calls = ["VisionAnalyst"] := by
  constructor
  · intro s
    have hb : isExtractionFailed s true =
        ((decide (s.detected_foods.length = 0) &&
          decide (s.image_analysis_confidence < q015)) ||
          decide (s.image_analysis_confidence < q010)) := by
      unfold isExtractionFailed minFoodsForSuccess extractionConfidenceThreshold
      have hl : (s.detected_foods.length < 1) ↔ (s.detected_foods.length = 0) :=
        Nat.lt_one_iff
      by_cases h1 : s.detected_foods.length = 0 <;>
        by_cases h2 : s.image_analysis_confidence < q015 <;>
        by_cases h3 : s.image_analysis_confidence < q010 <;>
        simp [hl, h1, h2, h3]
    rw [hb]
    simp [List.length_eq_zero]
  · intro env uid img txt mt profile himg hobs hgate
    have hsome : img.isSome = true := by
      cases img with
      | none => simp [truthyBytes] at himg
      | some b => rfl
    have hgate2 : isExtractionFailed (stateAfterObserve env uid img txt mt)
        img.isSome = true := by rw [hsome]; exact hgate
    refine ⟨_, process_gate env uid img txt mt profile himg hobs hgate2, ?_⟩
    rw [hsome]
    unfold handleExtractionFailure
    refine ⟨rfl, rfl, rfl, rfl, rfl, by simp, rfl, ?_⟩
    show (observeState env { user_id := uid, meal_type := mt } img txt).agent_calls
      ++ ["VisionAnalyst"] = ["VisionAnalyst"]
    rw [observeState_agent_calls]
    rfl

/-- Environment for the C1 witness: the vision agent reports no foods with
confidence 0. -/
def c1Env : Env :=
  { vision := { success := true, output := some { foods := [], overall_confidence := 0 } },
    elapsedMs := 5 }

/-- C1, witness: the gate theorem applied to a concrete failed image run. -/
theorem C1_witness :
    truthyBytes (some [0]) = true ∧ c1Env.raiseObserve = none ∧
    isExtractionFailed (stateAfterObserve c1Env "u" (some [0]) none none) true = true ∧
    ∃ s, process c1Env "u" (some [0]) none none none = .ok s ∧
      s.detected_foods = [] ∧ s.total_nutrients = [] ∧ s.adjustments = [] ∧
      s.constraint_violations = [] ∧ s.overall_score = some 0 ∧
      s.summary = some imageFailureSummary ∧
      s.processing_time_ms = some 5 ∧ s.agent_calls = ["VisionAnalyst"] :=
  ⟨by decide, rfl, by decide,
    C1_extraction_gate.2 c1Env "u" (some [0]) none none none (by decide) rfl (by decide)⟩

/-! ## Claim C2 — stage exceptions never escape `process` -/

/-- C2: for every input that passes validation, `process` always returns a
state (never an error); and whenever the pipeline body raises, the returned
state carries the diagnostic summary, score 0 and the elapsed time. -/
theorem C2_no_exception_escape (env : Env) (uid : String)
    (img : Option (List Nat)) (txt : Option String) (mt : Option MealType)
    (profile : Option UserProfile)
    (hval : (truthyBytes img || truthyText txt) = true) :
    (∃ s, process env uid img txt mt profile = .ok s) ∧
    ∀ e st, runInner env { user_id := uid, meal_type := mt } img txt profile
        = .error (e, st) →
      process env uid img txt mt profile =
        .ok { st with summary := some ("Analysis failed: " ++ e),
                      overall_score := some 0,
                      processing_time_ms := some env.elapsedMs } := by
  have hcond : (!truthyBytes img && !truthyText txt) = false := by
    cases h1 : truthyBytes img <;> cases h2 : truthyText txt <;>
      simp_all
  constructor
  · cases hr : runInner env { user_id := uid, meal_type := mt } img txt profile with
    | ok s =>
      exact ⟨s, by simp only [process, hcond, Bool.false_eq_true, if_false, hr]⟩
    | error p =>
      exact ⟨_, by simp only [process, hcond, Bool.false_eq_true, if_false, hr]; rfl⟩
  · intro e st hr
    simp only [process, hcond, Bool.false_eq_true, if_false, hr]

/-- Environment for the C2 witness: the THINK phase raises `"boom"`.
(The default vision outcome sends OBSERVE through the mock-foods fallback,
whose confidence 0.87 passes the gate.) -/
def c2Env : Env := { raiseThink := some "boom", elapsedMs := 3 }

/-- C2, witness: the absorption theorem applied to a run whose THINK phase
raises. -/
theorem C2_witness :
    (truthyBytes (some [7]) || truthyText none) = true ∧
    ∃ st, runInner c2Env { user_id := "u", meal_type := none } (some [7]) none none
        = .error ("boom", st) ∧
      process c2Env "u" (some [7]) none none none =
        .ok { st with summary := some ("Analysis failed: " ++ "boom"),
                      overall_score := some 0,
                      processing_time_ms := some 3 } :=
  ⟨by decide, _, rfl,
    (C2_no_exception_escape c2Env "u" (some [7]) none none none (by decide)).2
      "boom" _ rfl⟩

/-! ## Claim C3 — input validation -/

/-- C3, counterexample: the claim says supplying **both** inputs raises.  It
does not: with a non-empty image and non-empty text, `process` returns a
state (the image path is taken). -/
theorem C3_counterexample :
    ∃ s, process ({} : Env) "u" (some [1]) (some "rice") none none = .ok s :=
  ⟨_, rfl⟩

/-- C3 (amended): `process` raises the input-validation `ValueError` exactly
when neither input is supplied non-empty (`None` and empty bytes/strings
count as not supplied); the validation error is the only exception it ever
surfaces, and it is raised before the session state is created.  Supplying
both inputs does not raise — the image is used. -/
theorem C3_input_validation (env : Env) (uid : String)
    (img : Option (List Nat)) (txt : Option String) (mt : Option MealType)
    (profile : Option UserProfile) :
    ((∃ e, process env uid img txt mt profile = .error e) ↔
      (truthyBytes img = false ∧ truthyText txt = false))
    ∧ ∀ e, process env uid img txt mt profile = .error e → e = valErrMsg := by
  by_cases hi : truthyBytes img = true
  · have hcond : (!truthyBytes img && !truthyText txt) = false := by
      simp [hi]
    constructor
    · simp only [hi]
      constructor
      · rintro ⟨e, he⟩
        cases hr : runInner env { user_id := uid, meal_type := mt } img txt profile with
        | ok s => simp only [process, hcond, Bool.false_eq_true, if_false, hr] at he; exact Except.noConfusion he
        | error p => simp only [process, hcond, Bool.false_eq_true, if_false, hr] at he; exact Except.noConfusion he
      · rintro ⟨h, -⟩
        simp at h
    · intro e he
      cases hr : runInner env { user_id := uid, meal_type := mt } img txt profile with
      | ok s => simp only [process, hcond, Bool.false_eq_true, if_false, hr] at he; exact Except.noConfusion he
      | error p => simp only [process, hcond, Bool.false_eq_true, if_false, hr] at he; exact Except.noConfusion he
  · have hi2 : truthyBytes img = false := by
      cases h : truthyBytes img
      · rfl
      · exact absurd h hi
    by_cases ht : truthyText txt = true
    · have hcond : (!truthyBytes img && !truthyText txt) = false := by
        simp [ht]
      constructor
      · constructor
        · rintro ⟨e, he⟩
          cases hr : runInner env { user_id := uid, meal_type := mt } img txt profile with
          | ok s =>
            simp only [process, hcond, Bool.false_eq_true, if_false, hr] at he
            exact Except.noConfusion he
          | error p =>
            simp only [process, hcond, Bool.false_eq_true, if_false, hr] at he
            exact Except.noConfusion he
        · rintro ⟨-, h⟩
          exact absurd ht (by simp [h])
      · intro e he
        cases hr : runInner env { user_id := uid, meal_type := mt } img txt profile with
        | ok s => simp only [process, hcond, Bool.false_eq_true, if_false, hr] at he; exact Except.noConfusion he
        | error p => simp only [process, hcond, Bool.false_eq_true, if_false, hr] at he; exact Except.noConfusion he
    · have ht2 : truthyText txt = false := by
        cases h : truthyText txt
        · rfl
        · exact absurd h ht
      have hcond : (!truthyBytes img && !truthyText txt) = true := by
        simp [hi2, ht2]
      constructor
      · exact ⟨fun _ => ⟨hi2, ht2⟩,
          fun _ => ⟨valErrMsg, by simp only [process, hcond, if_true]⟩⟩
      · intro e he
        simp only [process, hcond, if_true] at he
        exact (Except.error.inj he).symm

/-- C3, witness: with neither input supplied, `process` raises exactly the
validation error. -/
theorem C3_witness :
    (∃ e, process ({} : Env) "u" none none none none = .error e) ∧
    ∀ e, process ({} : Env) "u" none none none none = .error e → e = valErrMsg :=
  ⟨(C3_input_validation ({} : Env) "u" none none none none).1.mpr ⟨rfl, rfl⟩,
    (C3_input_validation ({} : Env) "u" none none none none).2⟩

/-! ## Claim C8 — goal evaluation with no goals -/

/-- C8, counterexample: on a profile with no goals the evaluator does return
alignment 50.0 and empty recommendations, but the feedback is NOT empty — it
contains the goal-setup prompt, refuting the claimed "empty feedback". -/
theorem C8_counterexample :
    (goalEvaluatorProcess { user_id := "u" } { user_id := "u" }).alignment_score = 50 ∧
    (goalEvaluatorProcess { user_id := "u" } { user_id := "u" }).recommendations = [] ∧
    (goalEvaluatorProcess { user_id := "u" } { user_id := "u" }).feedback ≠ [] :=
  ⟨rfl, rfl, by decide⟩

/-- C8 (amended): evaluating any meal against a profile with no goals yields
alignment score exactly 50.0, empty goal scores, empty recommendations, and
feedback consisting of exactly one prompt to set up health goals. -/
theorem C8_no_goals_evaluation (meal : MealState) (profile : UserProfile)
    (h : profile.goals = []) :
    goalEvaluatorProcess meal profile =
      { alignment_score := 50, goal_scores := [], feedback := [setupPrompt],
        recommendations := [] } := by
  unfold goalEvaluatorProcess
  rw [h]
  rfl

/-- C8, witness: the amended theorem applied to the empty profile. -/
theorem C8_witness :
    ({ user_id := "u" } : UserProfile).goals = [] ∧
    goalEvaluatorProcess { user_id := "u" } { user_id := "u" } =
      { alignment_score := 50, goal_scores := [], feedback := [setupPrompt],
        recommendations := [] } :=
  ⟨rfl, C8_no_goals_evaluation { user_id := "u" } { user_id := "u" } rfl⟩

end NutriPilot
